import Mathlib

/-
Verification development for the autonomous multi-model task orchestrator
client (src/frontend/components/views/CodeEditorView.tsx). The definitions
below are a shallow embedding of the client-side state and of the handlers
the claims are about; machine numbers are modelled as Nat / Int, JavaScript
`undefined`/`null` as Option, and JS truthiness of strings and numbers is
made explicit (empty string and 0 are falsy).
-/

namespace BedrockCompare

/-- A log entry held in the observer state. The timestamp is the epoch-millis
value carried by the JS Date object. -/
structure ObsLog where
  type : String
  message : String
  timestamp : Nat
  deriving Repr, DecidableEq

/-- Summary of one plan phase as carried on a background-task record. -/
structure PhaseSummary where
  phase_id : Nat
  name : String
  description : String
  deriving Repr, DecidableEq

/-- The `autonomousProgress` client state (CodeEditorView.tsx lines 88-101).
Optional fields that the source leaves undefined at initialisation default
to none / 0 exactly as the initial useState value does. -/
structure ObsState where
  iteration : Nat
  progress : Nat
  analysis : String
  filesCreated : List String
  isComplete : Bool
  logs : List ObsLog
  currentPhase : Option String := none
  currentPhaseName : Option String := none
  currentPhaseId : Option Nat := none
  totalPhases : Option Nat := none
  phases : Option (List PhaseSummary) := none
  task : Option String := none
  startedAt : Option String := none
  workerCount : Nat := 0
  maxParallelWorkers : Nat := 0
  activeWorkers : Nat := 0
  deriving Repr, DecidableEq

/-- Status values of a background task (CodeEditorView.tsx line 24). -/
inductive TaskStatus where
  | pending
  | running
  | completed
  | stopped
  | error
  | cancelled
  deriving Repr, DecidableEq, BEq

/-- The BackgroundTask record polled from the registry
(CodeEditorView.tsx lines 20-49); fields the TS type marks optional are
Option here. -/
structure BackgroundTask where
  id : String
  workspace : String
  task : String
  status : TaskStatus
  iteration : Nat
  progress : Nat
  analysis : String
  files_created : List String
  current_phase : Option String
  current_phase_name : Option String
  current_phase_id : Option Nat
  total_phases : Option Nat
  phases : Option (List PhaseSummary)
  is_complete : Bool
  error : Option String
  conductor_model : Option String
  worker_models : Option (List String)
  worker_count : Option Nat
  max_parallel_workers : Option Nat
  active_workers : Option Nat
  deriving Repr, DecidableEq

/-- JS `x || d` on an optional string: empty string and undefined are falsy. -/
def jsOrStr (x : Option String) (d : String) : String :=
  match x with
  | some s => if s = "" then d else s
  | none => d

/-- JS `x || d` on an optional number: 0 and undefined are falsy. -/
def jsOrNat (x : Option Nat) (d : Nat) : Nat :=
  match x with
  | some n => if n = 0 then d else n
  | none => d

/-- JS `x || undefined` on an optional string field. -/
def jsTruthyStr (x : Option String) : Option String :=
  match x with
  | some s => if s = "" then none else some s
  | none => none

/-- JS `x || undefined` on an optional number field. -/
def jsTruthyNat (x : Option Nat) : Option Nat :=
  match x with
  | some n => if n = 0 then none else some n
  | none => none

/-- The JS expression `[...new Set(l)]`: iteration order of a JS Set is
insertion order, so this keeps the first occurrence of each element. -/
def jsSetDedup (l : List String) : List String :=
  l.foldl (fun acc x => if x ∈ acc then acc else acc ++ [x]) []

/-- One step of the poll loop in startPolling (lines 391-410): the observer
state is overwritten with the fields of the fetched task record. -/
def pollUpdate (prev : ObsState) (t : BackgroundTask) : ObsState :=
  { prev with
    iteration := t.iteration
    progress := t.progress
    analysis := t.analysis
    filesCreated := t.files_created
    isComplete := t.is_complete
    currentPhase := jsTruthyStr t.current_phase
    currentPhaseName := jsTruthyStr t.current_phase_name
    currentPhaseId := jsTruthyNat t.current_phase_id
    totalPhases := jsTruthyNat t.total_phases
    phases := t.phases
    workerCount := jsOrNat t.worker_count prev.workerCount
    maxParallelWorkers := jsOrNat t.max_parallel_workers prev.maxParallelWorkers
    activeWorkers := t.active_workers.getD prev.activeWorkers }

/-- The last n entries of a list, as JS `l.slice(-n)`. -/
def lastN (n : Nat) (l : List ObsLog) : List ObsLog :=
  l.drop (l.length - n)

/-- addLog inside processAutonomousStream (lines 1089-1094): keeps the last
50 log entries and appends the new one. -/
def addLog (prev : ObsState) (ty msg : String) (now : Nat) : ObsState :=
  { prev with logs := lastN 50 prev.logs ++ [⟨ty, msg, now⟩] }

/-- Effect of a decision stream event on the observer state (lines
1123-1128): progress and analysis are overwritten with the event values,
with JS `|| 0` and `|| empty` defaulting. -/
def decisionUpdate (prev : ObsState) (evProgress : Option Nat)
    (evAnalysis : Option String) : ObsState :=
  { prev with
    progress := jsOrNat evProgress 0
    analysis := jsOrStr evAnalysis "" }

/-- Effect of a file_created stream event on the observer state (lines
1138-1146): the path is folded into filesCreated through a JS Set, then a
file log entry is appended. -/
def fileCreatedEvent (prev : ObsState) (path : String) (parallel : Bool)
    (now : Nat) : ObsState :=
  addLog
    { prev with filesCreated := jsSetDedup (prev.filesCreated ++ [path]) }
    "file"
    ("ファイル作成" ++ (if parallel then " [並列]" else "") ++ ": " ++ path)
    now

/-- Effect of a task_complete stream event (line 1159). -/
def taskCompleteUpdate (prev : ObsState) : ObsState :=
  { prev with isComplete := true, progress := 100 }

/-- Effect of an iteration_start stream event (line 1116). -/
def iterationStartUpdate (prev : ObsState) (n : Nat) : ObsState :=
  { prev with iteration := n }

/-- The fresh observer state installed when a new background task is
started (lines 461-468, 979-988, 1035-1044). -/
def startTaskReset : ObsState :=
  { iteration := 0
    progress := 0
    analysis := ""
    filesCreated := []
    isComplete := false
    logs := [] }

section DedupLemmas

/-- Helper: the fold step of jsSetDedup. -/
def dedupStep (acc : List String) (x : String) : List String :=
  if x ∈ acc then acc else acc ++ [x]

theorem jsSetDedup_eq_foldl (l : List String) :
    jsSetDedup l = l.foldl dedupStep [] := rfl

theorem foldl_dedupStep_nodup :
    ∀ (l acc : List String), acc.Nodup → (l.foldl dedupStep acc).Nodup := by
  intro l
  induction l with
  | nil => intro acc h; simpa using h
  | cons x xs ih =>
    intro acc h
    simp only [List.foldl_cons]
    by_cases hx : x ∈ acc
    · simpa [dedupStep, hx] using ih acc h
    · rw [show dedupStep acc x = acc ++ [x] from by simp [dedupStep, hx]]
      refine ih (acc ++ [x]) ?_
      simpa [List.nodup_append] using ⟨h, hx⟩

theorem foldl_dedupStep_of_nodup :
    ∀ (l acc : List String), (acc ++ l).Nodup → l.foldl dedupStep acc = acc ++ l := by
  intro l
  induction l with
  | nil => intro acc _; simp
  | cons x xs ih =>
    intro acc h
    have hx : x ∉ acc := by
      intro hmem
      have := List.disjoint_of_nodup_append h
      exact this hmem (by simp)
    have hrest : ((acc ++ [x]) ++ xs).Nodup := by
      simpa [List.append_assoc] using h
    simp only [List.foldl_cons]
    rw [dedupStep, if_neg hx, ih (acc ++ [x]) hrest, List.append_assoc]
    simp

theorem jsSetDedup_of_nodup (l : List String) (h : l.Nodup) :
    jsSetDedup l = l := by
  simpa using foldl_dedupStep_of_nodup l [] (by simpa using h)

theorem jsSetDedup_append_singleton (prev : List String) (path : String)
    (h : prev.Nodup) :
    jsSetDedup (prev ++ [path]) =
      if path ∈ prev then prev else prev ++ [path] := by
  rw [jsSetDedup_eq_foldl, List.foldl_append]
  rw [show prev.foldl dedupStep [] = jsSetDedup prev from rfl,
    jsSetDedup_of_nodup prev h]
  by_cases hp : path ∈ prev
  · simp [dedupStep, hp]
  · simp [dedupStep, hp]

end DedupLemmas

/-- C1: for a file_created event, the new filesCreated is the set-union of
the previous list with the path — unchanged when the path is already
present, appended once otherwise — and stays duplicate-free. -/
theorem c1_filesCreated_set_union
    (prev : ObsState) (path : String) (parallel : Bool) (now : Nat)
    (h : prev.filesCreated.Nodup) :
    (fileCreatedEvent prev path parallel now).filesCreated =
      (if path ∈ prev.filesCreated then prev.filesCreated
        else prev.filesCreated ++ [path]) ∧
    (fileCreatedEvent prev path parallel now).filesCreated.Nodup := by
  constructor
  · simp only [fileCreatedEvent, addLog]
    exact jsSetDedup_append_singleton prev.filesCreated path h
  · simp only [fileCreatedEvent, addLog]
    exact foldl_dedupStep_nodup _ [] (by simp)

/-- Witness for C1 at a concrete state: the duplicate path is not appended
again and the result has no duplicates. -/
theorem c1_filesCreated_set_union_witness :
    (fileCreatedEvent
        { iteration := 2, progress := 40, analysis := "", isComplete := false,
          logs := [], filesCreated := ["main.py", "app.py"] }
        "main.py" false 1000).filesCreated =
      ["main.py", "app.py"] ∧
    (fileCreatedEvent
        { iteration := 2, progress := 40, analysis := "", isComplete := false,
          logs := [], filesCreated := ["main.py", "app.py"] }
        "main.py" false 1000).filesCreated.Nodup := by
  have h := c1_filesCreated_set_union
    { iteration := 2, progress := 40, analysis := "", isComplete := false,
      logs := [], filesCreated := ["main.py", "app.py"] }
    "main.py" false 1000 (by decide)
  refine ⟨?_, h.2⟩
  rw [h.1]
  decide

/-! Client execution state and the resume / cancel control operations. -/

/-- The planning UI phase (CodeEditorView.tsx line 136). -/
inductive PlanningPhase where
  | none
  | generating
  | review
  | executing
  deriving Repr, DecidableEq

/-- The slice of client state touched by the resume and cancel handlers:
current task id, executing flag, planning phase, which task the polling
interval follows, and the observer state. -/
structure ClientExec where
  currentTaskId : Option String
  isExecuting : Bool
  planningPhase : PlanningPhase
  pollingTaskId : Option String
  progress : ObsState
  deriving Repr, DecidableEq

/-- The condition under which the task list renders the resume button
(CodeEditorView.tsx line 2611). -/
def canResume (status : TaskStatus) (isComplete : Bool) : Bool :=
  (status == TaskStatus.stopped || status == TaskStatus.error ||
    status == TaskStatus.cancelled) && !isComplete

/-- Client effect of resumeTask (lines 596-614) once the resume endpoint
answered: with a task_id in the response the client re-enters execution and
polls under that id; without one nothing changes. The observer state is not
touched in either case. -/
def resumeApply (st : ClientExec) (respTaskId : Option String) : ClientExec :=
  match respTaskId with
  | some tid =>
      { st with
        currentTaskId := some tid
        isExecuting := true
        planningPhase := PlanningPhase.executing
        pollingTaskId := some tid }
  | none => st

/-- The request body of cancelTask (lines 507-510). -/
structure CancelBody where
  purge_files : Bool
  purge_logs : Bool
  deriving Repr, DecidableEq

/-- Client effect of cancelTask (lines 502-539) on a successful response,
paired with the request body it sent. The TS parameter defaults are
purgeFiles = false, purgeLogs = false. -/
def cancelApply (st : ClientExec) (purgeFiles : Bool := false)
    (purgeLogs : Bool := false) : ClientExec × CancelBody :=
  ({ st with
      pollingTaskId := none
      isExecuting := false
      planningPhase := PlanningPhase.none
      currentTaskId := none
      progress :=
        if purgeLogs then
          { st.progress with logs := [], filesCreated := [] }
        else st.progress },
   { purge_files := purgeFiles, purge_logs := purgeLogs })

/-- The three buttons of the cancel confirmation modal
(cancelTaskWithConfirm, lines 542-554): confirm purges both, cancel purges
neither, the third button does nothing. -/
inductive CancelChoice where
  | purgeBoth
  | purgeNeither
  | doNothing
  deriving Repr, DecidableEq

/-- Which purge arguments each modal choice passes to cancelTask; none for
the choice that only closes the modal. -/
def cancelConfirmChoice : CancelChoice → Option (Bool × Bool)
  | CancelChoice.purgeBoth => some (true, true)
  | CancelChoice.purgeNeither => some (false, false)
  | CancelChoice.doNothing => none

/-- The observer state installed by the clear-history button
(CodeEditorView.tsx lines 2388-2397), paired with the stored localStorage
value after the handler removed the persisted copy. The previous state is
ignored entirely. -/
def clearHistoryApply (_prevState : ObsState) (_storage : Option String) :
    ObsState × Option String :=
  (({ iteration := 0
      progress := 0
      analysis := ""
      filesCreated := []
      isComplete := false
      logs := [] } : ObsState), none)

/-! Concrete states used by counterexamples. -/

/-- A running observer state whose progress is 50. -/
def exObsProgress : ObsState :=
  { iteration := 2, progress := 50, analysis := "", filesCreated := [],
    isComplete := false, logs := [] }

/-- A polled task record reporting progress 10, lower than the observer
already holds. -/
def exTaskLowProgress : BackgroundTask :=
  { id := "task-1", workspace := "ws", task := "demo",
    status := TaskStatus.running, iteration := 3, progress := 10,
    analysis := "a", files_created := [], current_phase := none,
    current_phase_name := none, current_phase_id := none,
    total_phases := none, phases := none, is_complete := false,
    error := none, conductor_model := none, worker_models := none,
    worker_count := none, max_parallel_workers := none,
    active_workers := none }

/-- C2 counterexample: a poll update applied by startPolling overwrites
progress with the reported value, so a report of 10 against a held 50
strictly decreases the observer progress — the claimed monotonicity fails
on the client code. -/
theorem c2_progress_monotone_counterexample :
    ¬ (exObsProgress.progress ≤ (pollUpdate exObsProgress exTaskLowProgress).progress) := by
  decide

/-- C2 amended: the client applies progress by replacement — a poll sets
progress to the polled value, a decision event to the event value with 0
for a missing field — so the observer progress is non-decreasing exactly
when the reported values are, and a fresh task start resets progress to 0. -/
theorem c2_progress_replacement
    (prev : ObsState) (t : BackgroundTask) (p : Option Nat) (a : Option String)
    (hmono : prev.progress ≤ t.progress) :
    (pollUpdate prev t).progress = t.progress ∧
    (decisionUpdate prev p a).progress = jsOrNat p 0 ∧
    prev.progress ≤ (pollUpdate prev t).progress ∧
    startTaskReset.progress = 0 := by
  refine ⟨rfl, rfl, ?_, rfl⟩
  simpa [pollUpdate] using hmono

/-- Witness for C2 amended at a concrete monotone report. -/
theorem c2_progress_replacement_witness :
    (pollUpdate exObsProgress
        { exTaskLowProgress with progress := 60 }).progress = 60 ∧
    (decisionUpdate exObsProgress (some 70) none).progress = jsOrNat (some 70) 0 ∧
    exObsProgress.progress ≤
      (pollUpdate exObsProgress { exTaskLowProgress with progress := 60 }).progress ∧
    startTaskReset.progress = 0 := by
  have h := c2_progress_replacement exObsProgress
    { exTaskLowProgress with progress := 60 } (some 70) none (by decide)
  exact h

/-- C3: the resume button is rendered exactly when the status is stopped,
error or cancelled and the task is not complete; and a successful resume
response re-enters execution and polls under the returned task id while
leaving the observer state (iteration, progress, filesCreated) untouched. -/
theorem c3_resume_semantics
    (status : TaskStatus) (isComplete : Bool) (st : ClientExec) (tid : String) :
    (canResume status isComplete = true ↔
      ((status = TaskStatus.stopped ∨ status = TaskStatus.error ∨
        status = TaskStatus.cancelled) ∧ isComplete = false)) ∧
    (resumeApply st (some tid)).isExecuting = true ∧
    (resumeApply st (some tid)).pollingTaskId = some tid ∧
    (resumeApply st (some tid)).currentTaskId = some tid ∧
    (resumeApply st (some tid)).planningPhase = PlanningPhase.executing ∧
    (resumeApply st (some tid)).progress = st.progress := by
  refine ⟨?_, rfl, rfl, rfl, rfl, rfl⟩
  cases status <;> cases isComplete <;> decide

/-- C4: cancelTask sends exactly the two purge booleans it was given; with
purge_logs true the client clears its log and filesCreated lists and with
purge_logs false it leaves the observer state unchanged; the confirmation
modal offers exactly purge-both, purge-neither and do-nothing; and a cancel
without purge arguments defaults both booleans to false. -/
theorem c4_cancel_purge_semantics (st : ClientExec) (pf pl : Bool) :
    (cancelApply st pf pl).2 = { purge_files := pf, purge_logs := pl } ∧
    (cancelApply st pf true).1.progress.logs = [] ∧
    (cancelApply st pf true).1.progress.filesCreated = [] ∧
    (cancelApply st pf false).1.progress = st.progress ∧
    cancelConfirmChoice CancelChoice.purgeBoth = some (true, true) ∧
    cancelConfirmChoice CancelChoice.purgeNeither = some (false, false) ∧
    cancelConfirmChoice CancelChoice.doNothing = none ∧
    cancelApply st = cancelApply st false false := by
  exact ⟨rfl, rfl, rfl, rfl, rfl, rfl, rfl, rfl⟩

/-- An observer state of a finished task, used to refute the C5 frame
condition. -/
def exObsDone : ObsState :=
  { iteration := 7, progress := 80, analysis := "done", filesCreated := ["a.py"],
    isComplete := true, logs := [] }

/-- C5 counterexample: clear history resets iteration, progress and
isComplete as well, so on a state with iteration 7, progress 80 and
isComplete true none of those fields survives — the claimed frame condition
fails on the code. -/
theorem c5_clear_history_counterexample :
    ¬ ((clearHistoryApply exObsDone (some "saved")).1.iteration = exObsDone.iteration ∧
      (clearHistoryApply exObsDone (some "saved")).1.progress = exObsDone.progress ∧
      (clearHistoryApply exObsDone (some "saved")).1.isComplete = exObsDone.isComplete) := by
  decide

/-- C5 amended: clear history resets the whole client progress record to
the initial zero state — logs and filesCreated cleared, and iteration,
progress, analysis and isComplete reset to 0, 0, empty and false — and
removes the persisted localStorage copy; no request is sent, so only
client-held state changes. -/
theorem c5_clear_history_resets_all (st : ObsState) (storage : Option String) :
    (clearHistoryApply st storage).1.logs = [] ∧
    (clearHistoryApply st storage).1.filesCreated = [] ∧
    (clearHistoryApply st storage).1.iteration = 0 ∧
    (clearHistoryApply st storage).1.progress = 0 ∧
    (clearHistoryApply st storage).1.analysis = "" ∧
    (clearHistoryApply st storage).1.isComplete = false ∧
    (clearHistoryApply st storage).2 = none := by
  exact ⟨rfl, rfl, rfl, rfl, rfl, rfl, rfl⟩

/-! Plan generation: data model, request construction and response
handling (handleGeneratePlan, lines 884-971). -/

/-- One entry of files_to_create in a plan phase (lines 200-205). -/
structure PlanFile where
  path : String
  description : String
  dependencies : List String
  can_parallelize : Bool
  deriving Repr, DecidableEq

/-- One phase of a generated plan (lines 194-207). -/
structure PlanPhase where
  phase_id : Nat
  name : String
  description : String
  estimated_iterations : Nat
  files_to_create : List PlanFile
  completion_criteria : String
  deriving Repr, DecidableEq

/-- The generatedPlan client state shape (lines 191-211). -/
structure Plan where
  project_name : String
  description : String
  architecture : String
  phases : List PlanPhase
  final_structure : List String
  completion_criteria : String
  risks : List String
  deriving Repr, DecidableEq

/-- The per-file copy inside the previous-plan deep copy (lines 907-912);
the JS spread of the dependencies array is the list itself here. -/
def copyPlanFile (f : PlanFile) : PlanFile :=
  { path := f.path
    description := f.description
    dependencies := f.dependencies
    can_parallelize := f.can_parallelize }

/-- The per-phase copy inside the previous-plan deep copy (lines 902-914). -/
def copyPlanPhase (ph : PlanPhase) : PlanPhase :=
  { phase_id := ph.phase_id
    name := ph.name
    description := ph.description
    estimated_iterations := ph.estimated_iterations
    files_to_create := ph.files_to_create.map copyPlanFile
    completion_criteria := ph.completion_criteria }

/-- The previous-plan deep copy built before a regeneration request (lines
898-918). The risks branch models the JS conditional spread; an array value
is always truthy, so an existing risks list is copied as is. -/
def copyPlan (p : Plan) : Plan :=
  { project_name := p.project_name
    description := p.description
    architecture := p.architecture
    phases := p.phases.map copyPlanPhase
    final_structure := p.final_structure
    completion_criteria := p.completion_criteria
    risks := p.risks }

/-- The JS expression `feedback || planFeedback || undefined` (line 891):
the argument wins when non-empty, else the stored feedback when non-empty,
else nothing. -/
def feedbackToSend (feedback : Option String) (planFeedback : String) :
    Option String :=
  match feedback with
  | some f => if f = "" then jsTruthyStr (some planFeedback) else some f
  | none => jsTruthyStr (some planFeedback)

/-- worker_model_ids as built at every request site (lines 476, 933, 999,
1055): the selected models with the conductor filtered out. -/
def workerModelIds (selected : List String) (conductor : String) :
    List String :=
  selected.filter (fun m => m ≠ conductor)

/-- The body sent to the plan endpoint (lines 931-947). -/
structure PlanRequest where
  conductor_model_id : String
  worker_model_ids : List String
  task : String
  max_iterations : Nat
  max_parallel_workers : Int
  feedback : Option String
  previous_plan : Option Plan
  deriving Repr, DecidableEq

/-- Construction of the plan request in handleGeneratePlan: feedback is
attached only when non-empty, and previous_plan only alongside feedback
when a generated plan exists, as the deep copy of that plan. -/
def buildPlanRequest (conductor : String) (selected : List String)
    (task : String) (maxIter : Nat) (maxPar : Int)
    (feedback : Option String) (planFeedback : String)
    (generatedPlan : Option Plan) : PlanRequest :=
  let fb := feedbackToSend feedback planFeedback
  { conductor_model_id := conductor
    worker_model_ids := workerModelIds selected conductor
    task := task.trim
    max_iterations := maxIter
    max_parallel_workers := maxPar
    feedback := fb
    previous_plan :=
      match fb, generatedPlan with
      | some _, some p => some (copyPlan p)
      | _, _ => none }

/-- The body sent to the background-start endpoint (lines 474-483 and
997-1006); the direct-execution variant (lines 1053-1061) sends no
approved_plan, modelled as none. -/
structure BackgroundRequest where
  conductor_model_id : String
  worker_model_ids : List String
  task : String
  max_iterations : Nat
  max_parallel_workers : Int
  approved_plan : Option Plan
  deriving Repr, DecidableEq

/-- Construction of the background-start request. -/
def buildBackgroundRequest (conductor : String) (selected : List String)
    (task : String) (maxIter : Nat) (maxPar : Int)
    (approvedPlan : Option Plan) : BackgroundRequest :=
  { conductor_model_id := conductor
    worker_model_ids := workerModelIds selected conductor
    task := task.trim
    max_iterations := maxIter
    max_parallel_workers := maxPar
    approved_plan := approvedPlan }

/-- The JSON body answered by the plan endpoint as the client reads it. -/
structure PlanResponse where
  success : Bool
  plan : Option Plan
  raw_output : Option String
  deriving Repr, DecidableEq

/-- The plan-related client state. -/
structure PlanUiState where
  generatedPlan : Option Plan
  planError : Option String
  planningPhase : PlanningPhase
  planFeedback : String
  deriving Repr, DecidableEq

/-- State changes before the plan fetch (lines 926-928): phase generating,
plan and error cleared. -/
def preFetchPlanState (st : PlanUiState) : PlanUiState :=
  { st with
    planningPhase := PlanningPhase.generating
    generatedPlan := none
    planError := none }

/-- State changes on the parsed plan response (lines 957-965): a success
carrying a plan installs it wholesale and enters review; anything else
records an error message carrying the raw output and returns the phase to
none. -/
def applyPlanResponse (st : PlanUiState) (data : PlanResponse) : PlanUiState :=
  match data.success, data.plan with
  | true, some p =>
      { st with
        generatedPlan := some p
        planningPhase := PlanningPhase.review
        planFeedback := "" }
  | _, _ =>
      { st with
        planError :=
          some ("計画の生成に失敗しました: " ++ jsOrStr data.raw_output "Unknown error")
        planningPhase := PlanningPhase.none }

/-- The whole handleGeneratePlan state effect for a response that parsed. -/
def handlePlanOutcome (st : PlanUiState) (data : PlanResponse) : PlanUiState :=
  applyPlanResponse (preFetchPlanState st) data

/-- The value stored by the max-parallel-workers input handler (line 1625):
`Math.min(50, Math.max(1, Number(value)))`. -/
def clampWorkers (v : Int) : Int :=
  min 50 (max 1 v)

/-- The maxParallelWorkers values the client state can hold: the initial
useState value 10 (line 87) or any value produced by the clamped input
handler. -/
inductive ReachableWorkers : Int → Prop where
  | init : ReachableWorkers 10
  | step (v prev : Int) : ReachableWorkers prev → ReachableWorkers (clampWorkers v)

theorem clampWorkers_bounds (v : Int) :
    1 ≤ clampWorkers v ∧ clampWorkers v ≤ 50 := by
  constructor
  · exact le_min (by norm_num) (le_max_left 1 v)
  · exact min_le_left 50 _

/-- C6: every reachable maxParallelWorkers value lies in 1..50, hence so
does the max_parallel_workers field of every plan and background-start
request built from the state. -/
theorem c6_max_parallel_workers_bounds
    (s : Int) (hs : ReachableWorkers s)
    (conductor tsk planFeedback : String) (selected : List String)
    (maxIter : Nat) (fb : Option String) (gp ap : Option Plan) :
    (1 ≤ s ∧ s ≤ 50) ∧
    (1 ≤ (buildPlanRequest conductor selected tsk maxIter s fb planFeedback gp).max_parallel_workers ∧
      (buildPlanRequest conductor selected tsk maxIter s fb planFeedback gp).max_parallel_workers ≤ 50) ∧
    (1 ≤ (buildBackgroundRequest conductor selected tsk maxIter s ap).max_parallel_workers ∧
      (buildBackgroundRequest conductor selected tsk maxIter s ap).max_parallel_workers ≤ 50) := by
  have hb : 1 ≤ s ∧ s ≤ 50 := by
    induction hs with
    | init => norm_num
    | step v prev _ _ => exact clampWorkers_bounds v
  exact ⟨hb, hb, hb⟩

/-- Witness for C6 at the value the handler produces for input 999. -/
theorem c6_max_parallel_workers_bounds_witness :
    (1 ≤ clampWorkers 999 ∧ clampWorkers 999 ≤ 50) ∧
    (1 ≤ (buildPlanRequest "c" [] "t" 100 (clampWorkers 999) none "" none).max_parallel_workers ∧
      (buildPlanRequest "c" [] "t" 100 (clampWorkers 999) none "" none).max_parallel_workers ≤ 50) ∧
    (1 ≤ (buildBackgroundRequest "c" [] "t" 100 (clampWorkers 999) none).max_parallel_workers ∧
      (buildBackgroundRequest "c" [] "t" 100 (clampWorkers 999) none).max_parallel_workers ≤ 50) :=
  c6_max_parallel_workers_bounds (clampWorkers 999)
    (ReachableWorkers.step 999 10 ReachableWorkers.init) "c" "t" "" [] 100 none none none

/-- C7: when the plan response is not a success carrying a plan, the client
records a failure message built from the raw model output (or the literal
fallback when no raw output came back), keeps generatedPlan at none and
returns the planning phase to none; with a non-empty raw output the message
is exactly the failure prefix followed by that raw output. -/
theorem c7_plan_failure_reporting (st : PlanUiState) (data : PlanResponse)
    (h : ¬ (data.success = true ∧ data.plan.isSome = true)) :
    (handlePlanOutcome st data).generatedPlan = none ∧
    (handlePlanOutcome st data).planningPhase = PlanningPhase.none ∧
    (handlePlanOutcome st data).planError =
      some ("計画の生成に失敗しました: " ++ jsOrStr data.raw_output "Unknown error") ∧
    (∀ raw, data.raw_output = some raw → raw ≠ "" →
      (handlePlanOutcome st data).planError =
        some ("計画の生成に失敗しました: " ++ raw)) := by
  rcases data with ⟨s, pl, ro⟩
  cases s with
  | true =>
    cases pl with
    | some p => exact absurd ⟨rfl, rfl⟩ h
    | none =>
      refine ⟨rfl, rfl, rfl, ?_⟩
      intro raw hraw hne
      simp only at hraw
      subst hraw
      simp [handlePlanOutcome, preFetchPlanState, applyPlanResponse, jsOrStr, hne]
  | false =>
    cases pl with
    | some p =>
      refine ⟨rfl, rfl, rfl, ?_⟩
      intro raw hraw hne
      simp only at hraw
      subst hraw
      simp [handlePlanOutcome, preFetchPlanState, applyPlanResponse, jsOrStr, hne]
    | none =>
      refine ⟨rfl, rfl, rfl, ?_⟩
      intro raw hraw hne
      simp only at hraw
      subst hraw
      simp [handlePlanOutcome, preFetchPlanState, applyPlanResponse, jsOrStr, hne]

/-- Witness for C7 at a concrete failed response. -/
theorem c7_plan_failure_reporting_witness :
    (handlePlanOutcome
        { generatedPlan := none, planError := none,
          planningPhase := PlanningPhase.none, planFeedback := "" }
        { success := false, plan := none, raw_output := some "not json" }).generatedPlan = none ∧
    (handlePlanOutcome
        { generatedPlan := none, planError := none,
          planningPhase := PlanningPhase.none, planFeedback := "" }
        { success := false, plan := none, raw_output := some "not json" }).planningPhase =
      PlanningPhase.none ∧
    (handlePlanOutcome
        { generatedPlan := none, planError := none,
          planningPhase := PlanningPhase.none, planFeedback := "" }
        { success := false, plan := none, raw_output := some "not json" }).planError =
      some ("計画の生成に失敗しました: " ++
        jsOrStr (some "not json") "Unknown error") ∧
    (∀ raw, (some "not json" : Option String) = some raw → raw ≠ "" →
      (handlePlanOutcome
          { generatedPlan := none, planError := none,
            planningPhase := PlanningPhase.none, planFeedback := "" }
          { success := false, plan := none, raw_output := some "not json" }).planError =
        some ("計画の生成に失敗しました: " ++ raw)) :=
  c7_plan_failure_reporting
    { generatedPlan := none, planError := none,
      planningPhase := PlanningPhase.none, planFeedback := "" }
    { success := false, plan := none, raw_output := some "not json" }
    (by decide)

theorem copyPlanFile_eq (f : PlanFile) : copyPlanFile f = f := rfl

theorem map_copyPlanFile (l : List PlanFile) : l.map copyPlanFile = l := by
  induction l with
  | nil => rfl
  | cons f fs ih => simp [ih, copyPlanFile_eq]

theorem copyPlanPhase_eq (ph : PlanPhase) : copyPlanPhase ph = ph := by
  cases ph
  simp [copyPlanPhase, map_copyPlanFile]

theorem map_copyPlanPhase (l : List PlanPhase) : l.map copyPlanPhase = l := by
  induction l with
  | nil => rfl
  | cons ph phs ih => simp [ih, copyPlanPhase_eq]

/-- The previous-plan deep copy is structurally equal to the original. -/
theorem copyPlan_eq (p : Plan) : copyPlan p = p := by
  cases p
  simp [copyPlan, map_copyPlanPhase]

theorem feedbackToSend_isSome (feedback : Option String) (planFeedback : String) :
    (feedbackToSend feedback planFeedback).isSome = true ↔
      (feedback.getD "" ≠ "" ∨ planFeedback ≠ "") := by
  cases feedback with
  | none =>
    by_cases hp : planFeedback = "" <;> simp [feedbackToSend, jsTruthyStr, hp]
  | some f =>
    by_cases hf : f = "" <;> by_cases hp : planFeedback = "" <;>
      simp [feedbackToSend, jsTruthyStr, hf, hp]

/-- C8: the plan-generation request carries feedback exactly when non-empty
feedback is present, carries previous_plan exactly when it carries feedback
and a generated plan exists, that previous_plan is the deep copy of the
current plan and structurally equal to it, and a successful response
replaces the stored plan wholesale. -/
theorem c8_feedback_previous_plan
    (conductor tsk planFeedback : String) (selected : List String)
    (maxIter : Nat) (maxPar : Int) (feedback : Option String)
    (gp : Option Plan) (st : PlanUiState) (newPlan : Plan) (ro : Option String) :
    ((buildPlanRequest conductor selected tsk maxIter maxPar feedback planFeedback gp).feedback.isSome = true ↔
      (feedback.getD "" ≠ "" ∨ planFeedback ≠ "")) ∧
    ((buildPlanRequest conductor selected tsk maxIter maxPar feedback planFeedback gp).previous_plan.isSome = true ↔
      ((buildPlanRequest conductor selected tsk maxIter maxPar feedback planFeedback gp).feedback.isSome = true ∧
        gp.isSome = true)) ∧
    (∀ p, gp = some p →
      (buildPlanRequest conductor selected tsk maxIter maxPar feedback planFeedback gp).feedback.isSome = true →
      (buildPlanRequest conductor selected tsk maxIter maxPar feedback planFeedback gp).previous_plan =
        some (copyPlan p) ∧ copyPlan p = p) ∧
    ((applyPlanResponse st { success := true, plan := some newPlan, raw_output := ro }).generatedPlan =
      some newPlan ∧
      (applyPlanResponse st { success := true, plan := some newPlan, raw_output := ro }).planningPhase =
        PlanningPhase.review) := by
  refine ⟨?_, ?_, ?_, rfl, rfl⟩
  · simpa [buildPlanRequest] using feedbackToSend_isSome feedback planFeedback
  · cases hfb : feedbackToSend feedback planFeedback <;> cases hgp : gp <;>
      simp [buildPlanRequest, hfb, hgp]
  · intro p hgp hfb
    cases hfb2 : feedbackToSend feedback planFeedback with
    | none => simp [buildPlanRequest, hfb2] at hfb
    | some f => subst hgp; simp [buildPlanRequest, hfb2, copyPlan_eq]

/-- A concrete two-phase plan used by the C8 witness. -/
def exPlan : Plan :=
  { project_name := "demo"
    description := "a demo project"
    architecture := "flat"
    phases :=
      [{ phase_id := 1, name := "setup", description := "init",
         estimated_iterations := 2,
         files_to_create :=
           [{ path := "main.py", description := "entry",
              dependencies := [], can_parallelize := true },
            { path := "util.py", description := "helpers",
              dependencies := ["main.py"], can_parallelize := false }],
         completion_criteria := "runs" }]
    final_structure := ["main.py", "util.py"]
    completion_criteria := "all files present"
    risks := ["rate limits"] }

/-- Witness for C8 at a concrete feedback and plan. -/
theorem c8_feedback_previous_plan_witness :
    ((buildPlanRequest "c" ["c", "w"] "t" 100 10 (some "add tests") "" (some exPlan)).feedback.isSome = true ↔
      ((some "add tests").getD "" ≠ "" ∨ ("" : String) ≠ "")) ∧
    ((buildPlanRequest "c" ["c", "w"] "t" 100 10 (some "add tests") "" (some exPlan)).previous_plan.isSome = true ↔
      ((buildPlanRequest "c" ["c", "w"] "t" 100 10 (some "add tests") "" (some exPlan)).feedback.isSome = true ∧
        (some exPlan).isSome = true)) ∧
    (∀ p, (some exPlan) = some p →
      (buildPlanRequest "c" ["c", "w"] "t" 100 10 (some "add tests") "" (some exPlan)).feedback.isSome = true →
      (buildPlanRequest "c" ["c", "w"] "t" 100 10 (some "add tests") "" (some exPlan)).previous_plan =
        some (copyPlan p) ∧ copyPlan p = p) ∧
    ((applyPlanResponse
        { generatedPlan := some exPlan, planError := none,
          planningPhase := PlanningPhase.generating, planFeedback := "" }
        { success := true, plan := some exPlan, raw_output := none }).generatedPlan =
      some exPlan ∧
      (applyPlanResponse
          { generatedPlan := some exPlan, planError := none,
            planningPhase := PlanningPhase.generating, planFeedback := "" }
          { success := true, plan := some exPlan, raw_output := none }).planningPhase =
        PlanningPhase.review) :=
  c8_feedback_previous_plan "c" "t" "" ["c", "w"] 100 10 (some "add tests")
    (some exPlan)
    { generatedPlan := some exPlan, planError := none,
      planningPhase := PlanningPhase.generating, planFeedback := "" }
    exPlan none

/-- C9: in every plan and background-start request the conductor model id is
filtered out of the worker model ids. -/
theorem c9_conductor_not_in_workers
    (conductor tsk planFeedback : String) (selected : List String)
    (maxIter : Nat) (maxPar : Int) (fb : Option String) (gp ap : Option Plan) :
    conductor ∉ (buildPlanRequest conductor selected tsk maxIter maxPar fb planFeedback gp).worker_model_ids ∧
    conductor ∉ (buildBackgroundRequest conductor selected tsk maxIter maxPar ap).worker_model_ids := by
  have hmem : conductor ∉ workerModelIds selected conductor := by
    simp [workerModelIds]
  exact ⟨hmem, hmem⟩

/-! localStorage persistence of autonomousProgress (save effect at lines
332-336, restore at lines 102-133). JSON keeps every field as is except
the log timestamps, which a Date serialises to a string and the restore
path revives with new Date(string); the serialise/parse pair is the
runtime capability, taken as a parameter together with its round-trip
guarantee. -/

/-- A log entry as it sits in the serialised JSON: timestamp as string. -/
structure StoredLog where
  type : String
  message : String
  timestamp : String
  deriving Repr, DecidableEq

/-- The serialised autonomousProgress record. -/
structure StoredState where
  iteration : Nat
  progress : Nat
  analysis : String
  filesCreated : List String
  isComplete : Bool
  logs : List StoredLog
  currentPhase : Option String
  currentPhaseName : Option String
  currentPhaseId : Option Nat
  totalPhases : Option Nat
  phases : Option (List PhaseSummary)
  task : Option String
  startedAt : Option String
  workerCount : Nat
  maxParallelWorkers : Nat
  activeWorkers : Nat
  deriving Repr, DecidableEq

/-- The storage key used by the save effect (line 334). -/
def autonomousProgressKey : String := "autonomousProgress"

/-- JSON.stringify of the state (line 334): field-for-field, with each log
timestamp serialised through the Date-to-string capability iso. -/
def stringifyProgress (iso : Nat → String) (st : ObsState) : StoredState :=
  { iteration := st.iteration
    progress := st.progress
    analysis := st.analysis
    filesCreated := st.filesCreated
    isComplete := st.isComplete
    logs := st.logs.map (fun l =>
      { type := l.type, message := l.message, timestamp := iso l.timestamp })
    currentPhase := st.currentPhase
    currentPhaseName := st.currentPhaseName
    currentPhaseId := st.currentPhaseId
    totalPhases := st.totalPhases
    phases := st.phases
    task := st.task
    startedAt := st.startedAt
    workerCount := st.workerCount
    maxParallelWorkers := st.maxParallelWorkers
    activeWorkers := st.activeWorkers }

/-- The restore mapping at lines 110-115: every field kept, each log
timestamp revived through the string-to-Date capability parse. -/
def reviveProgress (parse : String → Nat) (st : StoredState) : ObsState :=
  { iteration := st.iteration
    progress := st.progress
    analysis := st.analysis
    filesCreated := st.filesCreated
    isComplete := st.isComplete
    logs := st.logs.map (fun l =>
      { type := l.type, message := l.message, timestamp := parse l.timestamp })
    currentPhase := st.currentPhase
    currentPhaseName := st.currentPhaseName
    currentPhaseId := st.currentPhaseId
    totalPhases := st.totalPhases
    phases := st.phases
    task := st.task
    startedAt := st.startedAt
    workerCount := st.workerCount
    maxParallelWorkers := st.maxParallelWorkers
    activeWorkers := st.activeWorkers }

/-- The initial zero state returned when nothing is restored (lines
122-132). -/
def initialProgress : ObsState :=
  { iteration := 0
    progress := 0
    analysis := ""
    filesCreated := []
    isComplete := false
    logs := [] }

/-- The useState initialiser (lines 102-133): no saved item or an
unparseable saved item falls back to the initial state, a parsed one is
revived. The outer Option is presence of the item, the inner one success
of JSON.parse. -/
def restoreProgress (parse : String → Nat)
    (saved : Option (Option StoredState)) : ObsState :=
  match saved with
  | some (some st) => reviveProgress parse st
  | some none => initialProgress
  | none => initialProgress

/-- The save condition of the persistence effect (line 333). -/
def shouldSave (st : ObsState) : Bool :=
  decide (0 < st.logs.length) || decide (0 < st.iteration)

theorem map_log_roundtrip (iso : Nat → String) (parse : String → Nat)
    (h : ∀ t, parse (iso t) = t) (l : List ObsLog) :
    (l.map (fun x =>
        ({ type := x.type, message := x.message,
           timestamp := iso x.timestamp } : StoredLog))).map
      (fun x =>
        ({ type := x.type, message := x.message,
           timestamp := parse x.timestamp } : ObsLog)) = l := by
  induction l with
  | nil => rfl
  | cons x xs ih =>
    cases x
    simp [ih, h]

/-- C10: whenever the log list is non-empty or the iteration is positive
the state is saved; saving and restoring through any serialise/parse pair
satisfying the Date round-trip guarantee yields the state back, field for
field, with the log timestamps revived; and a missing or unparseable saved
item restores to the initial zero state. -/
theorem c10_persistence_roundtrip
    (iso : Nat → String) (parse : String → Nat)
    (h : ∀ t, parse (iso t) = t) (st : ObsState) :
    (shouldSave st = true ↔ (st.logs ≠ [] ∨ 0 < st.iteration)) ∧
    restoreProgress parse (some (some (stringifyProgress iso st))) = st ∧
    restoreProgress parse (some none) = initialProgress ∧
    restoreProgress parse none = initialProgress ∧
    (initialProgress.iteration = 0 ∧ initialProgress.progress = 0 ∧
      initialProgress.logs = ([] : List ObsLog) ∧
      initialProgress.filesCreated = ([] : List String) ∧
      initialProgress.isComplete = false) := by
  refine ⟨?_, ?_, rfl, rfl, rfl, rfl, rfl, rfl, rfl⟩
  · simp [shouldSave, List.length_pos]
  · cases st
    simp only [restoreProgress, stringifyProgress, reviveProgress]
    congr 1
    exact map_log_roundtrip iso parse h _

/-- The Date-to-string capability used by the C10 witness, together with
its inverse: any injective pair satisfying the round-trip law works. -/
def exIso (t : Nat) : String := String.mk (List.replicate t 'x')

/-- Inverse of exIso. -/
def exParse (s : String) : Nat := s.length

theorem exParse_exIso (t : Nat) : exParse (exIso t) = t := by
  simp [exParse, exIso, String.length]

/-- A concrete observer state with logs, used by the C10 witness. -/
def exProgSaved : ObsState :=
  { iteration := 3
    progress := 60
    analysis := "mid"
    filesCreated := ["main.py"]
    isComplete := false
    logs := [⟨"info", "start", 5⟩, ⟨"file", "wrote main.py", 9⟩] }

/-- Witness for C10 at a concrete state and codec. -/
theorem c10_persistence_roundtrip_witness :
    (shouldSave exProgSaved = true ↔ (exProgSaved.logs ≠ [] ∨ 0 < exProgSaved.iteration)) ∧
    restoreProgress exParse (some (some (stringifyProgress exIso exProgSaved))) = exProgSaved ∧
    restoreProgress exParse (some none) = initialProgress ∧
    restoreProgress exParse none = initialProgress ∧
    (initialProgress.iteration = 0 ∧ initialProgress.progress = 0 ∧
      initialProgress.logs = ([] : List ObsLog) ∧
      initialProgress.filesCreated = ([] : List String) ∧
      initialProgress.isComplete = false) :=
  c10_persistence_roundtrip exIso exParse exParse_exIso exProgSaved

end BedrockCompare
